import Mathlib

/-!
# Vision-Mate: shallow embedding of the signal-analysis pipeline

This file embeds, in Lean 4, the parts of the Vision-Mate desktop wellness
monitor that its specification makes claims about:

* `BlinkDetector` (`src/blink_detection.py`): a stateful blink-rate estimator
  with a 60 s sliding window, a whole-session blink log, and a debounced
  low-blink alert.
* `PostureDetector` (`src/posture_detection.py`): a stateful posture monitor
  that classifies each frame as "good"/"poor" from face-box geometry,
  accumulates time spent in poor posture, and raises a debounced alert after
  a continuous poor streak.
* `MonitorThread` (`src/main.py`): the monitoring-loop cycle, its timers, its
  event publications, and the event channel (`queue.Queue`) it posts to.

Modelling conventions: Python floats are embedded as exact rationals `ℚ`
(times, distances, rates); Python `None`-able fields become `Option`;
Python lists become `List`; the Haar-cascade observations (eyes open/closed,
face rectangles, frame shape) are inputs to the embedded transition
functions, exactly at the boundary where the source reads them from OpenCV.
Python's `round(x, n)` (round-half-to-even on the scaled value) is embedded
as `pyRound`.  Statements about exceptions model a raising call site as an
`Except.error` result and the Python propagation rule: once a statement
raises, the remaining statements of the cycle do not run.
-/

namespace VisionMate

/-- Round-half-to-even on rationals (the tie-breaking rule of Python's
built-in `round`): nearest integer, ties going to the even one. -/
def roundHalfEven (q : ℚ) : ℤ :=
  let f := ⌊q⌋
  let r := q - (f : ℚ)
  if r < 1/2 then f
  else if 1/2 < r then f + 1
  else if Even f then f else f + 1

/-- Embedding of Python's `round(x, n)` for `n ≥ 0` digits: scale by `10^n`,
round half to even, scale back.  (Exact on `ℚ`; the source applies it to
floats, whose representation error we do not model.) -/
def pyRound (n : ℕ) (q : ℚ) : ℚ :=
  (roundHalfEven (q * (10 : ℚ) ^ n) : ℚ) / (10 : ℚ) ^ n

/-! ## Blink detector (`src/blink_detection.py`) -/

/-- State of `blink_detection.BlinkDetector`.  The OpenCV cascade handle is
not part of the analyser state proper; whether eyes were detected in the
face region is an input of `update` (`eyes_open = len(eyes) > 0`). -/
structure BlinkDetector where
  min_blinks_per_minute : ℚ
  alert_cooldown_seconds : ℚ
  last_alert_time : ℚ
  last_eye_state_open : Option Bool
  eye_closed_start : Option ℚ
  /-- Recent blinks within a sliding time window (for live rate). -/
  recent_blinks : List ℚ
  /-- All blinks seen in the current monitoring session (for summary stats). -/
  all_blinks : List ℚ
  deriving Repr, DecidableEq

/-- Result dictionary of `BlinkDetector.update`:
`{"blink_rate_bpm": ..., "low_blink_alert": ...}`. -/
structure BlinkInfo where
  blink_rate_bpm : ℚ
  low_blink_alert : Bool
  deriving Repr, DecidableEq

/-- Embeds `BlinkDetector.__init__` with the source's default thresholds
(12 blinks/min healthy floor, 600 s alert cooldown);
`BlinkDetector.reset` restores exactly these mutable fields. -/
def BlinkDetector.init : BlinkDetector :=
  { min_blinks_per_minute := 12
    alert_cooldown_seconds := 600
    last_alert_time := 0
    last_eye_state_open := none
    eye_closed_start := none
    recent_blinks := []
    all_blinks := [] }

/-- The blink-transition block of `BlinkDetector.update` (lines 84-100):
record the new eye state; on open→closed remember the closure start; on
closed→open record a blink iff the closed duration `d` satisfies
`0.05 < d < 0.8` (strict), then clear the closure start regardless. -/
def BlinkDetector.transition (s : BlinkDetector) (eyes_open : Bool) (now : ℚ) :
    BlinkDetector :=
  let prev_open := s.last_eye_state_open
  let s := { s with last_eye_state_open := some eyes_open }
  if prev_open = some true ∧ ¬eyes_open then
    { s with eye_closed_start := some now }
  else if prev_open = some false ∧ eyes_open then
    match s.eye_closed_start with
    | some start =>
      let closed_duration := now - start
      let s :=
        if 0.05 < closed_duration ∧ closed_duration < 0.8 then
          { s with recent_blinks := s.recent_blinks ++ [now]
                   all_blinks := s.all_blinks ++ [now] }
        else s
      { s with eye_closed_start := none }
    | none => s
  else s

/-- The sliding-window maintenance of `BlinkDetector.update` (lines 102-104):
keep only blinks with `now - t <= 60.0`. -/
def BlinkDetector.applyWindow (s : BlinkDetector) (now : ℚ) : BlinkDetector :=
  { s with recent_blinks := s.recent_blinks.filter (fun t => decide (now - t ≤ 60)) }

/-- Live blink rate (lines 106-109): `0` on an empty window, otherwise
`len(recent) * 60 / max(now - recent[0], 1.0)`. -/
def BlinkDetector.rateBpm (s : BlinkDetector) (now : ℚ) : ℚ :=
  match s.recent_blinks with
  | [] => 0
  | t :: _ => (s.recent_blinks.length : ℚ) * 60 / max (now - t) 1

/-- Observation span used to gate alerts (line 117):
`now - recent[0]` if the window is nonempty, else `0`. -/
def BlinkDetector.observationTime (s : BlinkDetector) (now : ℚ) : ℚ :=
  match s.recent_blinks with
  | [] => 0
  | t :: _ => now - t

/-- Embeds `BlinkDetector.update` given the eye observation of the current frame:
transition, window maintenance, rate computation, then the debounced
low-blink alert (lines 116-122). -/
def BlinkDetector.update (s : BlinkDetector) (eyes_open : Bool) (now : ℚ) :
    BlinkDetector × BlinkInfo :=
  let s := (s.transition eyes_open now).applyWindow now
  let blink_rate_bpm := s.rateBpm now
  let observation_time := s.observationTime now
  if observation_time ≥ 30 ∧ blink_rate_bpm > 0 ∧
      blink_rate_bpm < s.min_blinks_per_minute ∧
      now - s.last_alert_time ≥ s.alert_cooldown_seconds then
    ({ s with last_alert_time := now },
     { blink_rate_bpm := blink_rate_bpm, low_blink_alert := true })
  else
    (s, { blink_rate_bpm := blink_rate_bpm, low_blink_alert := false })

/-- Embeds `BlinkDetector.session_stats`: `(avg_blink_rate_per_minute, total_blinks)`.
Empty sessions report `(0, 0)`; otherwise the rate is the blink count divided
by the session duration in minutes clamped below by `1e-3`, rounded to two
decimals by Python's `round`. -/
def BlinkDetector.session_stats (s : BlinkDetector)
    (session_start session_end : ℚ) : ℚ × ℕ :=
  if s.all_blinks = [] then (0, 0)
  else
    let duration_min := max ((session_end - session_start) / 60) (1/1000)
    let total_blinks := s.all_blinks.length
    (pyRound 2 ((total_blinks : ℚ) / duration_min), total_blinks)

/-! ## Posture detector (`src/posture_detection.py`) -/

/-- State of `posture_detection.PostureDetector`.  The source's private
`_last_update_time` is embedded as `last_update_time`. -/
structure PostureDetector where
  tilt_threshold : ℚ
  min_poor_duration : ℚ
  alert_cooldown_seconds : ℚ
  last_alert_time : ℚ
  poor_since : Option ℚ
  current_state : String
  poor_posture_seconds : ℚ
  last_update_time : Option ℚ
  alert_count : ℕ
  deriving Repr, DecidableEq

/-- Result dictionary of `PostureDetector.update`:
`{"state": ..., "posture_alert": ...}`. -/
structure PostureInfo where
  state : String
  posture_alert : Bool
  deriving Repr, DecidableEq

/-- Embeds `PostureDetector.__init__` with the source's defaults (tilt threshold
0.3, 3 s minimum poor streak, 600 s alert cooldown); `PostureDetector.reset`
restores exactly these mutable fields. -/
def PostureDetector.init : PostureDetector :=
  { tilt_threshold := 0.3
    min_poor_duration := 3
    alert_cooldown_seconds := 600
    last_alert_time := 0
    poor_since := none
    current_state := "unknown"
    poor_posture_seconds := 0
    last_update_time := none
    alert_count := 0 }

/-- One call to `PostureDetector.update`: the detected face rectangle
`(x, y, w, h)`, the frame height (`frame_shape[0]`; the width is read but
unused by the source), and the current time. -/
structure PostureInput where
  x : ℤ
  y : ℤ
  w : ℤ
  h : ℤ
  height : ℤ
  now : ℚ
  deriving Repr, DecidableEq

/-- The "poor" classification of `PostureDetector.update` (lines 65-75):
the normalised vertical offset of the face centre from the frame centre,
`(cy - height/2) / (height/2)`, exceeds the tilt threshold.  (The source
would raise `ZeroDivisionError` on a zero-height frame; real frames have
positive height, and `ℚ` division by zero yields 0, classified "good".) -/
def PostureDetector.isPoor (tilt_threshold : ℚ) (inp : PostureInput) : Bool :=
  let cy := (inp.y : ℚ) + (inp.h : ℚ) / 2
  let norm_offset_y := (cy - (inp.height : ℚ) / 2) / ((inp.height : ℚ) / 2)
  decide (norm_offset_y > tilt_threshold)

/-- Embeds `PostureDetector.update` (lines 65-105): classify the frame, integrate
poor-posture time by the delta since the previous update (only while
`poor_since` is already set), debounce the posture alert on a continuous
poor streak of at least `min_poor_duration` with an
`alert_cooldown_seconds` cooldown, and clear `poor_since` on any "good"
classification. -/
def PostureDetector.update (s : PostureDetector) (inp : PostureInput) :
    PostureDetector × PostureInfo :=
  let poor := PostureDetector.isPoor s.tilt_threshold inp
  let dt : ℚ :=
    match s.last_update_time with
    | some t => max 0 (inp.now - t)
    | none => 0
  let s := { s with last_update_time := some inp.now }
  let (s, posture_alert) :=
    if poor then
      match s.poor_since with
      | none => ({ s with poor_since := some inp.now }, false)
      | some since =>
        let s := { s with poor_posture_seconds := s.poor_posture_seconds + dt }
        if inp.now - since ≥ s.min_poor_duration ∧
            inp.now - s.last_alert_time ≥ s.alert_cooldown_seconds then
          ({ s with last_alert_time := inp.now, alert_count := s.alert_count + 1 },
           true)
        else (s, false)
    else ({ s with poor_since := none }, false)
  let s := { s with current_state := if poor then "poor" else "good" }
  (s, { state := s.current_state, posture_alert := posture_alert })

/-- Embeds `PostureDetector.session_stats`:
`(poor_posture_seconds rounded to one decimal, poor_posture_alerts)`. -/
def PostureDetector.session_stats (s : PostureDetector) : ℚ × ℕ :=
  (pyRound 1 s.poor_posture_seconds, s.alert_count)

/-! ## Monitoring loop and event channel (`src/main.py`) -/

/-- Events posted by `MonitorThread._post_event` into the event queue,
`(name, payload)` tuples in the source. -/
inductive Event where
  | distance_update (distance_cm : Option ℚ)
  | distance_warning (distance_cm : ℚ)
  | blink_rate_update (blink_rate_bpm : ℚ)
  | blink_low (blink_rate_bpm : ℚ)
  | posture_update (state : String)
  | posture_warning (state : String)
  | break_reminder
  | error (message : String)
  deriving Repr, DecidableEq

/-- The event channel: a `queue.Queue` as stdlib Python defines it, with
`maxsize` and FIFO contents; the queue is full iff `0 < maxsize ≤ len`. -/
structure EventChannel where
  maxsize : ℕ
  items : List Event
  deriving Repr, DecidableEq

/-- CPython's full test: `0 < maxsize <= qsize()` (`maxsize = 0` means
the queue can never be full). -/
def EventChannel.isFull (q : EventChannel) : Bool :=
  decide (0 < q.maxsize ∧ q.maxsize ≤ q.items.length)

/-- Embeds `MonitorThread._post_event` (lines 240-244): a non-blocking
`put(..., block=False)` whose `queue.Full` exception is swallowed, so a
full channel silently discards the event and a non-full one appends it. -/
def EventChannel.post (q : EventChannel) (e : Event) : EventChannel :=
  if q.isFull then q else { q with items := q.items ++ [e] }

/-- Posting a whole list of events in order through `post`. -/
def EventChannel.postAll (q : EventChannel) (es : List Event) : EventChannel :=
  es.foldl EventChannel.post q

/-- The channel as `VisionMateWindow.__init__` (line 979) actually creates
it: `queue.Queue()`, i.e. `maxsize = 0`, which in Python means unbounded. -/
def EventChannel.init : EventChannel :=
  { maxsize := 0, items := [] }

/-- Mutable per-session state of `main.MonitorThread` (the OpenCV capture
and cascade handles, queue handle and stop flag are not analyser state;
frame contents enter through the per-cycle inputs). -/
structure MonitorThread where
  min_distance_cm : ℚ
  break_interval_seconds : ℚ
  reference_face_width_px : ℚ
  reference_distance_cm : ℚ
  last_frame_time : Option ℚ
  continuous_face_time : ℚ
  last_face_seen_time : Option ℚ
  absence_reset_seconds : ℚ
  last_distance_alert_time : ℚ
  distance_alert_cooldown : ℚ
  too_close_events : ℕ
  break_alerts : ℕ
  blink_detector : BlinkDetector
  posture_detector : PostureDetector
  deriving Repr, DecidableEq

/-- Embeds `MonitorThread.__init__` with the source's defaults: 40 cm minimum
distance, 2100 s break interval, 150 px / 60 cm reference geometry, 300 s
absence reset, 5 s distance-warning cooldown. -/
def MonitorThread.init : MonitorThread :=
  { min_distance_cm := 40
    break_interval_seconds := 2100
    reference_face_width_px := 150
    reference_distance_cm := 60
    last_frame_time := none
    continuous_face_time := 0
    last_face_seen_time := none
    absence_reset_seconds := 300
    last_distance_alert_time := 0
    distance_alert_cooldown := 5
    too_close_events := 0
    break_alerts := 0
    blink_detector := BlinkDetector.init
    posture_detector := PostureDetector.init }

/-- Embeds `MonitorThread._update_timers_face_present` (lines 246-248). -/
def MonitorThread.updateTimersFacePresent (s : MonitorThread) (now dt : ℚ) :
    MonitorThread :=
  { s with last_face_seen_time := some now
           continuous_face_time := s.continuous_face_time + dt }

/-- Embeds `MonitorThread._update_timers_no_face` (lines 250-253): zero the
continuous-viewing timer only once the user has been absent for at least
`absence_reset_seconds`. -/
def MonitorThread.updateTimersNoFace (s : MonitorThread) (now : ℚ) :
    MonitorThread :=
  match s.last_face_seen_time with
  | some t =>
    if now - t ≥ s.absence_reset_seconds then { s with continuous_face_time := 0 }
    else s
  | none => s

/-- Embeds `MonitorThread._estimate_distance_cm` (lines 255-262): `None` on a
non-positive face width, else `reference_distance_cm *
reference_face_width_px / face_width_px`. -/
def MonitorThread.estimateDistanceCm (s : MonitorThread) (face_width_px : ℚ) :
    Option ℚ :=
  if face_width_px ≤ 0 then none
  else some (s.reference_distance_cm * s.reference_face_width_px / face_width_px)

/-- The no-face branch of a loop cycle (`run`, lines 228-231): conditional
timer reset, then a "no face" distance update.  The computed `dt` is unused
by this branch (`# noqa: ARG002` in the source). -/
def MonitorThread.runCycleNoFace (s : MonitorThread) (now : ℚ) :
    List Event × MonitorThread :=
  ([Event.distance_update none], s.updateTimersNoFace now)

/-- The distance-reporting block of the face branch (`run`, lines 173-195):
always a live distance update, plus a debounced too-close warning.  Returns
the posted events and the updated state. -/
def MonitorThread.distanceBlock (s : MonitorThread) (now : ℚ) (w : ℤ) :
    List Event × MonitorThread :=
  match s.estimateDistanceCm (w : ℚ) with
  | some distance_cm =>
    let ev := [Event.distance_update (some (pyRound 1 distance_cm))]
    if distance_cm < s.min_distance_cm ∧
        now - s.last_distance_alert_time ≥ s.distance_alert_cooldown then
      (ev ++ [Event.distance_warning (pyRound 1 distance_cm)],
       { s with too_close_events := s.too_close_events + 1
                last_distance_alert_time := now })
    else (ev, s)
  | none => ([Event.distance_update none], s)

/-- The face branch of a loop cycle (`run`, lines 169-227), with the two
analyser calls modelled by their outcomes: `Except.error` stands for the
call raising an exception, and `Except.ok` for its normal return value
(a `none` blink payload models the source's empty-dict returns).  `run`
wraps the loop in `try/finally` only — there is no `except` — so Python's
propagation rule applies: once a call raises, the remaining statements of
the cycle do not run and the exception escapes the loop.  Events already
posted before the raise stay posted; the result is the posted events
together with either the post-cycle state or the escaped exception. -/
def MonitorThread.runCycleFace (s : MonitorThread) (now dt : ℚ) (w : ℤ)
    (blink_res : Except String (BlinkDetector × Option BlinkInfo))
    (posture_res : Except String (PostureDetector × PostureInfo)) :
    List Event × Except String MonitorThread :=
  let s := s.updateTimersFacePresent now dt
  let db := s.distanceBlock now w
  let events := db.1
  let s := db.2
  match blink_res with
  | Except.error e => (events, Except.error e)
  | Except.ok (bs, blink_info) =>
    let s := { s with blink_detector := bs }
    let events := events ++
      match blink_info with
      | some info =>
        [Event.blink_rate_update info.blink_rate_bpm] ++
          (if info.low_blink_alert then [Event.blink_low info.blink_rate_bpm]
           else [])
      | none => []
    match posture_res with
    | Except.error e => (events, Except.error e)
    | Except.ok (ps, posture_info) =>
      let s := { s with posture_detector := ps }
      let events := events ++
        [Event.posture_update posture_info.state] ++
          (if posture_info.posture_alert then
            [Event.posture_warning posture_info.state]
           else [])
      if s.continuous_face_time ≥ s.break_interval_seconds then
        (events ++ [Event.break_reminder],
         Except.ok { s with break_alerts := s.break_alerts + 1
                            continuous_face_time := 0 })
      else (events, Except.ok s)

/-! ## Iterated updates, traces and chronological input sequences -/

/-- Predicate form of chronology: `timesMono N ts` holds when the time stamps `ts` are non-decreasing and
all at least `N` — the shape of the `time.time()` values successive loop
cycles observe. -/
def timesMono (N : ℚ) : List ℚ → Bool
  | [] => true
  | t :: rest => decide (N ≤ t) && timesMono t rest

/-- Fold a sequence of per-frame eye observations `(eyes_open, now)` through
`BlinkDetector.update`, keeping the final state. -/
def BlinkDetector.runList (s : BlinkDetector) : List (Bool × ℚ) → BlinkDetector
  | [] => s
  | (b, t) :: rest => BlinkDetector.runList (s.update b t).1 rest

/-- Like `BlinkDetector.runList`, additionally collecting the per-update
time and result dictionary. -/
def BlinkDetector.runTrace (s : BlinkDetector) :
    List (Bool × ℚ) → BlinkDetector × List (ℚ × BlinkInfo)
  | [] => (s, [])
  | (b, t) :: rest =>
    let su := s.update b t
    let rec' := BlinkDetector.runTrace su.1 rest
    (rec'.1, (t, su.2) :: rec'.2)

/-- Fold a sequence of inputs through `PostureDetector.update`, keeping the
final state. -/
def PostureDetector.runList (s : PostureDetector) :
    List PostureInput → PostureDetector
  | [] => s
  | inp :: rest => PostureDetector.runList (s.update inp).1 rest

/-- Like `PostureDetector.runList`, additionally collecting the per-update
time and result dictionary. -/
def PostureDetector.runTrace (s : PostureDetector) :
    List PostureInput → PostureDetector × List (ℚ × PostureInfo)
  | [] => (s, [])
  | inp :: rest =>
    let su := s.update inp
    let rec' := PostureDetector.runTrace su.1 rest
    (rec'.1, (inp.now, su.2) :: rec'.2)

/-! ## Spec-side definitions used to compare against the code

These definitions follow the specification's words, not the source; each
is compared with the corresponding source-derived definition above. -/

/-- The spec's reading of `sessionStats`: blink count divided by the
elapsed duration with the divisor "clamped to a minimum of 1 ms".
One millisecond is `1/1000` s `= 1/60000` min. -/
def sessionStatsSpec1ms (s : BlinkDetector) (session_start session_end : ℚ) :
    ℚ × ℕ :=
  if s.all_blinks = [] then (0, 0)
  else
    let duration_min := max ((session_end - session_start) / 60) (1/60000)
    let total_blinks := s.all_blinks.length
    ((total_blinks : ℚ) / duration_min, total_blinks)

/-- The claim's reading of poor-posture accounting: while the
classification is "poor", every update adds the delta since the previous
update call, the only skipped delta being the session's very first call
(the only call without a previous update timestamp).  Summed over adjacent
input pairs: the later input of each pair contributes its delta whenever it
is classified poor. -/
def poorAccumClaim (tilt : ℚ) : List PostureInput → ℚ
  | [] => 0
  | [_] => 0
  | a :: b :: rest =>
    (if PostureDetector.isPoor tilt b then b.now - a.now else 0) +
      poorAccumClaim tilt (b :: rest)

/-- The code's poor-posture accounting, expressed structurally over the
input sequence: given that the previous call was classified `prevPoor` and
happened at time `N`, each poor update following a poor one adds its delta. -/
def poorAccumCode (tilt : ℚ) (prevPoor : Bool) (N : ℚ) :
    List PostureInput → ℚ
  | [] => 0
  | a :: rest =>
    (if prevPoor ∧ PostureDetector.isPoor tilt a then a.now - N else 0) +
      poorAccumCode tilt (PostureDetector.isPoor tilt a) a.now rest

/-! ## Concrete frames and auxiliary definitions used by the theorems -/

/-- A face sitting at the frame centre of a 100-px-high frame: normalised
vertical offset 0, classified "good" under the default 0.3 threshold. -/
def goodFrame (t : ℚ) : PostureInput :=
  { x := 0, y := 40, w := 20, h := 20, height := 100, now := t }

/-- A face sitting low in a 100-px-high frame: normalised vertical offset
0.8, classified "poor" under the default 0.3 threshold. -/
def poorFrame (t : ℚ) : PostureInput :=
  { x := 0, y := 80, w := 20, h := 20, height := 100, now := t }

/-- A face-present cycle in which accumulated viewing time has reached the
break interval, a face is present at reference distance, and the blink
analyser raises. -/
def brokenBlinkCycle : List Event × Except String MonitorThread :=
  MonitorThread.runCycleFace
    { MonitorThread.init with continuous_face_time := 2100 } 0 0 150
    (Except.error "boom")
    (Except.ok (PostureDetector.init,
      { state := "good", posture_alert := false }))

/-- The per-cycle invariant of the blink state at observation time `N`:
the session log is time-sorted and bounded by `N`, and the recent window
is exactly the trailing-60 s filter of the session log. -/
def BlinkInv (s : BlinkDetector) (N : ℚ) : Prop :=
  s.all_blinks.Sorted (· ≤ ·) ∧
  (∀ t ∈ s.all_blinks, t ≤ N) ∧
  s.recent_blinks = s.all_blinks.filter (fun t => decide (N - t ≤ 60))

/-- The time stamp of the last input of a blink observation sequence
(`N` if the sequence is empty). -/
def lastTime (N : ℚ) : List (Bool × ℚ) → ℚ
  | [] => N
  | (_, t) :: rest => lastTime t rest

/-- The times at which a blink-update trace raised the low-blink alert. -/
def lowBlinkAlertTimes (tr : List (ℚ × BlinkInfo)) : List ℚ :=
  (tr.filter (fun p => p.2.low_blink_alert)).map Prod.fst

/-- The times at which a posture-update trace raised the posture alert. -/
def postureAlertTimes (tr : List (ℚ × PostureInfo)) : List ℚ :=
  (tr.filter (fun p => p.2.posture_alert)).map Prod.fst

/-! ## Structural lemmas about `BlinkDetector.update` -/

/-- The `transition` phase never changes the configured thresholds. -/
theorem BlinkDetector.transition_const (s : BlinkDetector) (b : Bool)
    (now : ℚ) :
    (s.transition b now).min_blinks_per_minute = s.min_blinks_per_minute ∧
    (s.transition b now).alert_cooldown_seconds = s.alert_cooldown_seconds := by
  simp only [BlinkDetector.transition]
  repeat' split
  all_goals exact ⟨rfl, rfl⟩

/-- The alert block of `update` only touches `last_alert_time`; every other
field of the final state is the one produced by transition + window. -/
theorem BlinkDetector.update_decomp (s : BlinkDetector) (b : Bool) (now : ℚ) :
    ((s.update b now).1).all_blinks =
      ((s.transition b now).applyWindow now).all_blinks ∧
    ((s.update b now).1).recent_blinks =
      ((s.transition b now).applyWindow now).recent_blinks ∧
    ((s.update b now).1).eye_closed_start =
      ((s.transition b now).applyWindow now).eye_closed_start ∧
    ((s.update b now).1).last_eye_state_open =
      ((s.transition b now).applyWindow now).last_eye_state_open ∧
    ((s.update b now).1).min_blinks_per_minute = s.min_blinks_per_minute ∧
    ((s.update b now).1).alert_cooldown_seconds = s.alert_cooldown_seconds := by
  obtain ⟨hm, hc⟩ := BlinkDetector.transition_const s b now
  simp only [BlinkDetector.update]
  split <;> simp_all [BlinkDetector.applyWindow]

/-- The `applyWindow` phase filters the recent window and nothing else. -/
theorem BlinkDetector.applyWindow_fields (s : BlinkDetector) (now : ℚ) :
    (s.applyWindow now).all_blinks = s.all_blinks ∧
    (s.applyWindow now).recent_blinks =
      s.recent_blinks.filter (fun t => decide (now - t ≤ 60)) ∧
    (s.applyWindow now).eye_closed_start = s.eye_closed_start ∧
    (s.applyWindow now).last_eye_state_open = s.last_eye_state_open := by
  simp [BlinkDetector.applyWindow]

/-- The `transition` phase always records the observed eye state. -/
theorem BlinkDetector.transition_lastEye (s : BlinkDetector) (b : Bool)
    (now : ℚ) : (s.transition b now).last_eye_state_open = some b := by
  simp only [BlinkDetector.transition]
  repeat' split
  all_goals rfl

/-- An `update` call always records the observed eye state. -/
theorem BlinkDetector.update_lastEye (s : BlinkDetector) (b : Bool)
    (now : ℚ) : ((s.update b now).1).last_eye_state_open = some b := by
  obtain ⟨-, -, -, h4, -, -⟩ := BlinkDetector.update_decomp s b now
  rw [h4, (BlinkDetector.applyWindow_fields _ _).2.2.2,
    BlinkDetector.transition_lastEye]

/-- Transition from an unknown previous eye state: only the eye state is
recorded. -/
theorem BlinkDetector.transition_none (s : BlinkDetector) (b : Bool) (now : ℚ)
    (hprev : s.last_eye_state_open = none) :
    s.transition b now = { s with last_eye_state_open := some b } := by
  simp [BlinkDetector.transition, hprev]

/-- Transition open→closed: the closure start is recorded. -/
theorem BlinkDetector.transition_open_closed (s : BlinkDetector) (now : ℚ)
    (hprev : s.last_eye_state_open = some true) :
    s.transition false now =
      { s with last_eye_state_open := some false
               eye_closed_start := some now } := by
  simp [BlinkDetector.transition, hprev]

/-- Transition closed→open with a recorded closure start: blink recorded
iff the closed duration is strictly between 0.05 and 0.8, and the closure
start cleared regardless. -/
theorem BlinkDetector.transition_closed_open (s : BlinkDetector)
    (t1 now : ℚ) (hprev : s.last_eye_state_open = some false)
    (hstart : s.eye_closed_start = some t1) :
    s.transition true now =
      { s with last_eye_state_open := some true
               eye_closed_start := none
               recent_blinks := s.recent_blinks ++
                 (if 0.05 < now - t1 ∧ now - t1 < 0.8 then [now] else [])
               all_blinks := s.all_blinks ++
                 (if 0.05 < now - t1 ∧ now - t1 < 0.8 then [now] else []) } := by
  by_cases hd : (0.05 : ℚ) < now - t1 ∧ now - t1 < 0.8 <;>
    simp [BlinkDetector.transition, hprev, hstart, hd]

/-! ## C10 -/

/-- Claim C10: On the first blink-detector update of a session (or after
reset), when the previous eye state is unknown, no blink is recorded and
`eye_closed_start` is not set, whether the eyes are observed open or
closed; only the sliding-window filter touches the blink lists, and the
call's sole transition effect is recording the observed eye state. -/
theorem blink_first_update_records_nothing (s : BlinkDetector) (b : Bool)
    (now : ℚ) (hprev : s.last_eye_state_open = none)
    (hclosed : s.eye_closed_start = none) :
    ((s.update b now).1).all_blinks = s.all_blinks ∧
    ((s.update b now).1).recent_blinks =
      s.recent_blinks.filter (fun t => decide (now - t ≤ 60)) ∧
    ((s.update b now).1).eye_closed_start = none ∧
    ((s.update b now).1).last_eye_state_open = some b := by
  obtain ⟨h1, h2, h3, h4, -⟩ := BlinkDetector.update_decomp s b now
  rw [h1, h2, h3, h4, BlinkDetector.transition_none s b now hprev]
  obtain ⟨w1, w2, w3, w4⟩ := BlinkDetector.applyWindow_fields
    { s with last_eye_state_open := some b } now
  rw [w1, w2, w3, w4]
  exact ⟨rfl, rfl, hclosed, rfl⟩

/-- Witness for C10: the initial detector state, eyes observed open at
time 0. -/
theorem blink_first_update_records_nothing_witness :
    ((BlinkDetector.init.update true 0).1).all_blinks = [] ∧
    ((BlinkDetector.init.update true 0).1).eye_closed_start = none := by
  have h := blink_first_update_records_nothing BlinkDetector.init true 0
    rfl rfl
  exact ⟨h.1, h.2.2.1⟩

/-- Claim C9: In a loop cycle with zero detected faces, the continuous-viewing
timer is left untouched while the user has been absent for less than
`absence_reset_seconds` (or was never seen), and any change to it is a
reset to zero that can only happen once the absence has lasted at least
`absence_reset_seconds`. -/
theorem no_face_cycle_timer_reset (s : MonitorThread) (now : ℚ) :
    (∀ t, s.last_face_seen_time = some t →
      now - t < s.absence_reset_seconds →
      ((s.runCycleNoFace now).2).continuous_face_time =
        s.continuous_face_time) ∧
    (s.last_face_seen_time = none →
      ((s.runCycleNoFace now).2).continuous_face_time =
        s.continuous_face_time) ∧
    (((s.runCycleNoFace now).2).continuous_face_time ≠
        s.continuous_face_time →
      ((s.runCycleNoFace now).2).continuous_face_time = 0 ∧
      ∃ t, s.last_face_seen_time = some t ∧
        now - t ≥ s.absence_reset_seconds) := by
  simp only [MonitorThread.runCycleNoFace, MonitorThread.updateTimersNoFace]
  refine ⟨?_, ?_, ?_⟩
  · intro t ht hlt
    simp [ht, not_le.mpr hlt]
  · intro h
    simp [h]
  · intro hne
    rcases hfs : s.last_face_seen_time with _ | t
    · simp [hfs] at hne
    · by_cases hge : now - t ≥ s.absence_reset_seconds
      · exact ⟨by simp [hfs, hge], t, rfl, hge⟩
      · simp [hfs, hge] at hne

/-- Witness for C9: a monitor that saw a face 10 s ago (absence threshold
300 s) keeps its accumulated viewing time through a no-face cycle. -/
theorem no_face_cycle_timer_reset_witness :
    ((({ MonitorThread.init with
          last_face_seen_time := some 0
          continuous_face_time := 42 } : MonitorThread).runCycleNoFace
        10).2).continuous_face_time = 42 := by
  have h := (no_face_cycle_timer_reset
    { MonitorThread.init with
        last_face_seen_time := some 0
        continuous_face_time := 42 } 10).1 0 rfl (by norm_num [MonitorThread.init])
  simpa using h

/-- Claim C5: Starting from any state whose last observed eye state is open,
observing closed at `t1` and then open at `t2` (closed duration
`d = t2 - t1`) appends a blink timestamp `t2` to both blink sequences iff
`0.05 < d < 0.8` with both bounds strict, and clears `eye_closed_start` on
the closed→open transition whether or not the duration qualified. -/
theorem blink_closed_open_records_iff (s : BlinkDetector) (t1 t2 : ℚ)
    (hopen : s.last_eye_state_open = some true) :
    (((s.update false t1).1.update true t2).1).all_blinks =
      s.all_blinks ++
        (if 0.05 < t2 - t1 ∧ t2 - t1 < 0.8 then [t2] else []) ∧
    (((s.update false t1).1.update true t2).1).recent_blinks =
      ((s.recent_blinks.filter (fun t => decide (t1 - t ≤ 60))).filter
          (fun t => decide (t2 - t ≤ 60))) ++
        (if 0.05 < t2 - t1 ∧ t2 - t1 < 0.8 then [t2] else []) ∧
    (((s.update false t1).1.update true t2).1).eye_closed_start = none := by
  set s1 := (s.update false t1).1 with hs1
  obtain ⟨a1, r1, e1, o1, -⟩ := BlinkDetector.update_decomp s false t1
  rw [BlinkDetector.transition_open_closed s t1 hopen] at a1 r1 e1 o1
  obtain ⟨wa, wr, we, wo⟩ := BlinkDetector.applyWindow_fields
    { s with last_eye_state_open := some false, eye_closed_start := some t1 }
    t1
  simp only [wa, wr, we, wo] at a1 r1 e1 o1
  obtain ⟨a2, r2, e2, o2, -⟩ := BlinkDetector.update_decomp s1 true t2
  rw [BlinkDetector.transition_closed_open s1 t1 t2 o1 e1] at a2 r2 e2
  obtain ⟨va, vr, ve, vo⟩ := BlinkDetector.applyWindow_fields
    { s1 with last_eye_state_open := some true
              eye_closed_start := none
              recent_blinks := s1.recent_blinks ++
                (if 0.05 < t2 - t1 ∧ t2 - t1 < 0.8 then [t2] else [])
              all_blinks := s1.all_blinks ++
                (if 0.05 < t2 - t1 ∧ t2 - t1 < 0.8 then [t2] else []) } t2
  simp only [va, vr, ve, vo] at a2 r2 e2
  refine ⟨?_, ?_, e2⟩
  · rw [a2, a1]
  · rw [r2, r1, List.filter_append]
    by_cases hd : 0.05 < t2 - t1 ∧ t2 - t1 < 0.8 <;>
      simp [hd, show (t2 - t2 ≤ 60) by norm_num]

/-- Witness for C5: from a fresh session that has seen open eyes at time 0,
a closure lasting 0.2 s (from 1.0 to 1.2) records the blink at 1.2 in both
sequences and clears the closure start. -/
theorem blink_closed_open_records_iff_witness :
    ((((BlinkDetector.init.update true 0).1.update false 1).1.update true
        1.2).1).all_blinks = [1.2] ∧
    ((((BlinkDetector.init.update true 0).1.update false 1).1.update true
        1.2).1).eye_closed_start = none := by
  have h := blink_closed_open_records_iff (BlinkDetector.init.update true 0).1
    1 1.2 (BlinkDetector.update_lastEye BlinkDetector.init true 0)
  have ha : ((BlinkDetector.init.update true 0).1).all_blinks = [] := by
    obtain ⟨h1, -, -, -, -⟩ := BlinkDetector.update_decomp
      BlinkDetector.init true 0
    rw [h1, (BlinkDetector.applyWindow_fields _ _).1,
      BlinkDetector.transition_none BlinkDetector.init true 0 rfl]
    simp [BlinkDetector.init]
  refine ⟨?_, h.2.2⟩
  rw [h.1, ha]
  norm_num

/-! ## C3: session statistics -/

/-- Claim C3 counterexample: the claim says the divisor of `sessionStats` is
clamped to a minimum of 1 ms.  The code clamps the duration *in minutes* at
`1e-3`, i.e. at 60 ms, so a zero-duration session with one blink reports
1000 blinks/min where a 1 ms clamp would report 60000. -/
theorem session_stats_1ms_counterexample :
    ({ BlinkDetector.init with all_blinks := [5] }).session_stats 0 0 ≠
      sessionStatsSpec1ms { BlinkDetector.init with all_blinks := [5] } 0 0 ∧
    (({ BlinkDetector.init with all_blinks := [5] }).session_stats 0 0).1 =
      1000 ∧
    (sessionStatsSpec1ms { BlinkDetector.init with all_blinks := [5] }
      0 0).1 = 60000 := by
  have h1 : (({ BlinkDetector.init with all_blinks := [5]
      } : BlinkDetector).session_stats 0 0).1 = 1000 := by
    norm_num [BlinkDetector.session_stats, pyRound, roundHalfEven]
  have h2 : (sessionStatsSpec1ms { BlinkDetector.init with all_blinks := [5] }
      0 0).1 = 60000 := by
    norm_num [sessionStatsSpec1ms]
  refine ⟨fun hc => ?_, h1, h2⟩
  rw [Prod.ext_iff] at hc
  rw [hc.1, h2] at h1
  norm_num at h1

/-- Claim C3 (amended): for every session, `sessionStats` reports
`totalBlinks` equal to the length of `allBlinkTimestamps`, and
`avgBlinkRatePerMinute` equal to the blink count divided by the elapsed
session duration in minutes with the divisor clamped to a minimum of
`1e-3` minutes — i.e. 60 ms, not 1 ms — and rounded half-to-even to two
decimals; the clamped divisor is always positive, so a zero-duration
session never divides by zero. -/
theorem session_stats_characterization (s : BlinkDetector) (a b : ℚ) :
    (s.session_stats a b).2 = s.all_blinks.length ∧
    (s.session_stats a b).1 =
      pyRound 2 ((s.all_blinks.length : ℚ) * 60 / max (b - a) (3/50)) ∧
    (0 : ℚ) < max ((b - a) / 60) (1/1000) := by
  have hpos : (0 : ℚ) < max ((b - a) / 60) (1/1000) :=
    lt_of_lt_of_le (by norm_num) (le_max_right _ _)
  by_cases he : s.all_blinks = []
  · refine ⟨?_, ?_, hpos⟩ <;>
      norm_num [BlinkDetector.session_stats, he, pyRound, roundHalfEven]
  · have hscale : max (b - a) (3/50) =
        60 * max ((b - a) / 60) (1/1000) := by
      rw [mul_max_of_nonneg _ _ (by norm_num : (0:ℚ) ≤ 60)]
      congr 1
      · ring
      · norm_num
    have hdiv : (s.all_blinks.length : ℚ) * 60 / max (b - a) (3/50) =
        (s.all_blinks.length : ℚ) / max ((b - a) / 60) (1/1000) := by
      rw [hscale, div_eq_div_iff (by positivity) (by positivity)]
      ring
    refine ⟨?_, ?_, hpos⟩ <;>
      simp [BlinkDetector.session_stats, he, hdiv]

/-! ## Structural lemmas about `PostureDetector.update` -/

/-- Field-level description of one `PostureDetector.update` call: the
thresholds are preserved, the previous-update timestamp is recorded,
`poor_since` becomes the (kept or newly started) streak start on a poor
classification and is cleared on a good one, and the poor-time accumulator
gains the delta since the previous update exactly when the classification
is poor and a streak was already open. -/
theorem PostureDetector.update_fields (s : PostureDetector)
    (inp : PostureInput) :
    ((s.update inp).1).tilt_threshold = s.tilt_threshold ∧
    ((s.update inp).1).min_poor_duration = s.min_poor_duration ∧
    ((s.update inp).1).alert_cooldown_seconds = s.alert_cooldown_seconds ∧
    ((s.update inp).1).last_update_time = some inp.now ∧
    ((s.update inp).1).poor_since =
      (if PostureDetector.isPoor s.tilt_threshold inp then
        some (s.poor_since.getD inp.now)
       else none) ∧
    ((s.update inp).1).poor_posture_seconds = s.poor_posture_seconds +
      (if PostureDetector.isPoor s.tilt_threshold inp ∧ s.poor_since.isSome
          then
        (match s.last_update_time with
         | some t => max 0 (inp.now - t)
         | none => 0)
       else 0) := by
  rcases hps : s.poor_since with _ | since <;>
    rcases hlu : s.last_update_time with _ | lt <;>
      by_cases hp : PostureDetector.isPoor s.tilt_threshold inp <;>
        simp [PostureDetector.update, hps, hlu, hp] <;>
          split <;> simp

/-- The alert decision of one `PostureDetector.update` call: an alert is
raised iff the classification is poor, a streak was already open since
`since` with `now - since ≥ min_poor_duration`, and the cooldown since the
previous alert has elapsed. -/
theorem PostureDetector.update_alert_iff (s : PostureDetector)
    (inp : PostureInput) :
    ((s.update inp).2).posture_alert = true ↔
      (PostureDetector.isPoor s.tilt_threshold inp = true ∧
        ∃ since, s.poor_since = some since ∧
          inp.now - since ≥ s.min_poor_duration ∧
          inp.now - s.last_alert_time ≥ s.alert_cooldown_seconds) := by
  rcases hps : s.poor_since with _ | since <;>
    by_cases hp : PostureDetector.isPoor s.tilt_threshold inp <;>
      simp [PostureDetector.update, hps, hp] <;>
        split <;> simp_all

/-- An `update` call moves `last_alert_time` to the call's time exactly when it
raises an alert. -/
theorem PostureDetector.update_lastAlert (s : PostureDetector)
    (inp : PostureInput) :
    ((s.update inp).1).last_alert_time =
      (if (s.update inp).2.posture_alert then inp.now
       else s.last_alert_time) := by
  rcases hps : s.poor_since with _ | since <;>
    by_cases hp : PostureDetector.isPoor s.tilt_threshold inp <;>
      simp [PostureDetector.update, hps, hp] <;>
        split <;> simp_all

/-! ## C4: poor-posture time accounting -/

/-- Claim C4 counterexample: for the call sequence good@0, poor@1, poor@2 the
code accumulates only 1 s (the delta of the poor@1 call — the first call
of the new poor streak, which has a previous update timestamp — is
skipped), while the claim's accounting, which only skips the session's
very first call, predicts 2 s. -/
theorem poor_seconds_counterexample :
    (PostureDetector.init.runList
        [goodFrame 0, poorFrame 1, poorFrame 2]).poor_posture_seconds = 1 ∧
    poorAccumClaim 0.3 [goodFrame 0, poorFrame 1, poorFrame 2] = 2 ∧
    (PostureDetector.init.runList
        [goodFrame 0, poorFrame 1, poorFrame 2]).poor_posture_seconds ≠
      poorAccumClaim 0.3 [goodFrame 0, poorFrame 1, poorFrame 2] := by
  have h1 : (PostureDetector.init.runList
      [goodFrame 0, poorFrame 1, poorFrame 2]).poor_posture_seconds = 1 := by
    norm_num [PostureDetector.runList, PostureDetector.update,
      PostureDetector.isPoor, PostureDetector.init, goodFrame, poorFrame]
  have h2 : poorAccumClaim 0.3 [goodFrame 0, poorFrame 1, poorFrame 2]
      = 2 := by
    norm_num [poorAccumClaim, PostureDetector.isPoor, goodFrame, poorFrame]
  exact ⟨h1, h2, by rw [h1, h2]; norm_num⟩

/-- Poor-time accounting of a run of updates from any mid-session state:
each input adds its delta since the previous call exactly when it is
classified poor and the immediately preceding call was also classified
poor (`poorAccumCode`). -/
theorem PostureDetector.runList_accum (ins : List PostureInput) :
    ∀ (s : PostureDetector) (N : ℚ), s.last_update_time = some N →
      timesMono N (ins.map PostureInput.now) = true →
      (s.runList ins).poor_posture_seconds =
        s.poor_posture_seconds +
          poorAccumCode s.tilt_threshold s.poor_since.isSome N ins := by
  induction ins with
  | nil =>
    intro s N _ _
    simp [PostureDetector.runList, poorAccumCode]
  | cons a rest ih =>
    intro s N hlast hmono
    have hmono' : decide (N ≤ a.now) = true ∧
        timesMono a.now (rest.map PostureInput.now) = true := by
      simpa [timesMono, List.map] using hmono
    obtain ⟨ht, -, -, hlu, hpsince, hpps⟩ := PostureDetector.update_fields s a
    simp only [PostureDetector.runList]
    rw [ih (s.update a).1 a.now hlu hmono'.2, hpps, ht, hpsince, hlast]
    have hdt : max 0 (a.now - N) = a.now - N := by
      have := of_decide_eq_true hmono'.1
      simp [max_eq_right, sub_nonneg.mpr this]
    simp only [poorAccumCode, hdt]
    by_cases hp : PostureDetector.isPoor s.tilt_threshold a <;>
      rcases hq : s.poor_since with _ | since <;>
        simp [hp, hq] <;> ring

/-- Claim C4 (amended): for every sequence of posture updates with
non-decreasing timestamps, `accumulatedPoorSeconds` is the sum, over the
updates classified "poor" whose *immediately preceding update was also
classified "poor"*, of the delta since that preceding update.  The delta
is skipped not only on the session's very first call but on the first call
of every poor streak (whenever the previous classification was good or
unknown). -/
theorem poor_seconds_accumulation (N : ℚ) (ins : List PostureInput)
    (h : timesMono N (ins.map PostureInput.now) = true) :
    (PostureDetector.init.runList ins).poor_posture_seconds =
      poorAccumCode PostureDetector.init.tilt_threshold false 0 ins := by
  cases ins with
  | nil => simp [PostureDetector.runList, poorAccumCode, PostureDetector.init]
  | cons a rest =>
    have hmono' : timesMono a.now (rest.map PostureInput.now) = true := by
      have := h
      simp only [List.map, timesMono, Bool.and_eq_true] at this
      exact this.2
    obtain ⟨ht, -, -, hlu, hpsince, hpps⟩ :=
      PostureDetector.update_fields PostureDetector.init a
    simp only [PostureDetector.runList]
    rw [PostureDetector.runList_accum rest (PostureDetector.init.update a).1
      a.now hlu hmono', hpps, ht, hpsince]
    simp only [poorAccumCode, PostureDetector.init]
    by_cases hp : PostureDetector.isPoor (0.3 : ℚ) a <;>
      simp [hp, PostureDetector.init]

/-- Witness for C4: two poor frames at times 0 and 1; the code accumulates
exactly the 1 s delta of the second call, as `poorAccumCode` predicts. -/
theorem poor_seconds_accumulation_witness :
    (PostureDetector.init.runList
        [poorFrame 0, poorFrame 1]).poor_posture_seconds =
      poorAccumCode PostureDetector.init.tilt_threshold false 0
        [poorFrame 0, poorFrame 1] := by
  apply poor_seconds_accumulation 0
  norm_num [timesMono, poorFrame]

/-! ## C2: event channel -/

/-- On a channel with `maxsize = 0` (Python's "infinite" queue), `post`
always appends. -/
theorem EventChannel.post_unbounded (q : EventChannel) (e : Event)
    (h : q.maxsize = 0) :
    q.post e = { q with items := q.items ++ [e] } := by
  simp [EventChannel.post, EventChannel.isFull, h]

/-- On a channel with `maxsize = 0`, every posted event is retained in
order. -/
theorem EventChannel.postAll_unbounded (es : List Event) :
    ∀ q : EventChannel, q.maxsize = 0 →
      (q.postAll es).items = q.items ++ es := by
  induction es with
  | nil =>
    intro q _
    simp [EventChannel.postAll]
  | cons e rest ih =>
    intro q h
    simp only [EventChannel.postAll, List.foldl] at *
    rw [EventChannel.post_unbounded q e h,
      ih { q with items := q.items ++ [e] } h]
    simp

/-- Claim C2 counterexample: the Event Channel the application actually
creates (`queue.Queue()`, i.e. `maxsize = 0`) is *not* a bounded
fixed-capacity queue: no capacity bounds the number of retained events,
because for any candidate capacity `c`, publishing `c + 1` events leaves
`c + 1` events in the channel. -/
theorem event_channel_bounded_counterexample :
    ¬ ∃ c : ℕ, ∀ es : List Event,
      (EventChannel.init.postAll es).items.length ≤ c := by
  rintro ⟨c, hc⟩
  have h := hc (List.replicate (c + 1) Event.break_reminder)
  rw [EventChannel.postAll_unbounded _ _ rfl] at h
  simp [EventChannel.init] at h

/-- Claim C2 (amended): the publish operation (`_post_event`) never blocks:
it is a non-blocking put whose `queue.Full` exception is swallowed, so a
full channel leaves the contents unchanged (the event is silently
discarded) and a non-full channel appends the event; but the channel as
constructed is *unbounded* (`queue.Queue()` with `maxsize = 0`), so it is
never full and every event published by the monitoring loop is retained. -/
theorem event_channel_publish (q : EventChannel) (e : Event)
    (es : List Event) :
    (q.isFull = true → q.post e = q) ∧
    (q.isFull = false → (q.post e).items = q.items ++ [e]) ∧
    (EventChannel.init.postAll es).items = es := by
  refine ⟨fun h => by simp [EventChannel.post, h],
    fun h => by simp [EventChannel.post, h], ?_⟩
  rw [EventChannel.postAll_unbounded es EventChannel.init rfl]
  simp [EventChannel.init]

/-- Witness for C2: a capacity-1 channel already holding one event
silently discards the next published event. -/
theorem event_channel_publish_witness :
    ({ maxsize := 1, items := [Event.break_reminder] } : EventChannel).post
        (Event.error "overflow") =
      { maxsize := 1, items := [Event.break_reminder] } :=
  (event_channel_publish
      { maxsize := 1, items := [Event.break_reminder] }
      (Event.error "overflow") []).1 rfl

/-! ## C1: analyser exceptions and the monitoring cycle -/

/-- The distance block always posts a distance update first and never
posts a break reminder, a blink event or a posture event. -/
theorem MonitorThread.distanceBlock_events (s : MonitorThread) (now : ℚ)
    (w : ℤ) :
    (∃ d rest, (s.distanceBlock now w).1 = Event.distance_update d :: rest) ∧
    Event.break_reminder ∉ (s.distanceBlock now w).1 := by
  simp only [MonitorThread.distanceBlock]
  cases he : s.estimateDistanceCm (w : ℚ) with
  | none => exact ⟨⟨none, [], rfl⟩, by simp⟩
  | some dcm =>
    by_cases hc : dcm < s.min_distance_cm ∧
        now - s.last_distance_alert_time ≥ s.distance_alert_cooldown
    · exact ⟨⟨some (pyRound 1 dcm), [Event.distance_warning (pyRound 1 dcm)],
        by simp [hc]⟩, by simp [hc]⟩
    · exact ⟨⟨some (pyRound 1 dcm), [], by simp [hc]⟩, by simp [hc]⟩

/-- Claim C1 (amended): an exception raised inside the Blink Detector's or
the Posture Detector's update propagates out of the cycle — `run` has no
`except` handler, only `try/finally` — so the cycle ends with the escaped
exception and the loop does not continue.  The cycle's distance reporting,
which precedes the analyser calls, has already executed (the first posted
event of the cycle is a distance update), but the break-reminder logic at
the end of the cycle is skipped: no break reminder is posted. -/
theorem analyzer_exception_escapes_cycle (s : MonitorThread) (now dt : ℚ)
    (w : ℤ) (e : String)
    (pres : Except String (PostureDetector × PostureInfo))
    (bs : BlinkDetector) (bi : Option BlinkInfo) :
    ((s.runCycleFace now dt w (Except.error e) pres).2 = Except.error e ∧
      Event.break_reminder ∉
        (s.runCycleFace now dt w (Except.error e) pres).1 ∧
      (∃ d, ((s.runCycleFace now dt w (Except.error e) pres).1).head? =
        some (Event.distance_update d))) ∧
    ((s.runCycleFace now dt w (Except.ok (bs, bi)) (Except.error e)).2 =
        Except.error e ∧
      Event.break_reminder ∉
        (s.runCycleFace now dt w (Except.ok (bs, bi)) (Except.error e)).1 ∧
      (∃ d, ((s.runCycleFace now dt w (Except.ok (bs, bi))
          (Except.error e)).1).head? = some (Event.distance_update d))) := by
  obtain ⟨⟨d, rest, hd⟩, hbr⟩ := MonitorThread.distanceBlock_events
    (s.updateTimersFacePresent now dt) now w
  have hblink : Event.break_reminder ∉
      (match bi with
       | some info => [Event.blink_rate_update info.blink_rate_bpm] ++
           (if info.low_blink_alert then
             [Event.blink_low info.blink_rate_bpm]
            else [])
       | none => ([] : List Event)) := by
    rcases bi with _ | info
    · simp
    · by_cases hl : info.low_blink_alert <;> simp [hl]
  constructor
  · refine ⟨rfl, hbr, d, ?_⟩
    simp [MonitorThread.runCycleFace, hd]
  · refine ⟨rfl, ?_, d, ?_⟩
    · simp only [MonitorThread.runCycleFace, List.mem_append, not_or]
      exact ⟨hbr, hblink⟩
    · simp [MonitorThread.runCycleFace, hd]

/-- Claim C1 counterexample: with the blink update raising, the cycle whose
viewing timer is due for a break reminder posts only the distance update
and ends with the escaped exception: the break-reminder logic does not
execute and the loop does not continue with a next cycle, contradicting
the claim that analyser exceptions never propagate out of a cycle. -/
theorem analyzer_exception_isolated_counterexample :
    brokenBlinkCycle =
      ([Event.distance_update (some 60)], Except.error "boom") ∧
    ¬ ((∃ s', brokenBlinkCycle.2 = Except.ok s') ∧
        Event.break_reminder ∈ brokenBlinkCycle.1) := by
  have h : brokenBlinkCycle =
      ([Event.distance_update (some 60)], Except.error "boom") := by
    norm_num [brokenBlinkCycle, MonitorThread.runCycleFace,
      MonitorThread.distanceBlock, MonitorThread.updateTimersFacePresent,
      MonitorThread.estimateDistanceCm, MonitorThread.init, pyRound,
      roundHalfEven]
  refine ⟨h, ?_⟩
  rintro ⟨⟨s', hs⟩, -⟩
  rw [h] at hs
  simp at hs

/-! ## C6: the sliding-window invariant -/

/-- One transition appends the same (possibly empty) one-element batch to
both blink lists: either no blink is recorded, or `now` is appended to
both. -/
theorem BlinkDetector.transition_lists (s : BlinkDetector) (b : Bool)
    (now : ℚ) :
    ∃ ap : List ℚ, (ap = [] ∨ ap = [now]) ∧
      (s.transition b now).all_blinks = s.all_blinks ++ ap ∧
      (s.transition b now).recent_blinks = s.recent_blinks ++ ap := by
  simp only [BlinkDetector.transition]
  repeat' split
  all_goals first
    | (refine ⟨[], Or.inl rfl, ?_, ?_⟩ <;> (simp; done))
    | (refine ⟨[now], Or.inr rfl, ?_, ?_⟩ <;> (simp; done))

/-- The invariant `BlinkInv` is preserved by any update at a time `now ≥ N`. -/
theorem BlinkDetector.update_inv (s : BlinkDetector) (b : Bool) (N now : ℚ)
    (hN : N ≤ now) (hinv : BlinkInv s N) : BlinkInv ((s.update b now).1) now := by
  obtain ⟨hsort, hbound, hrec⟩ := hinv
  obtain ⟨h1, h2, -, -, -, -⟩ := BlinkDetector.update_decomp s b now
  obtain ⟨ap, hap, hall, hrecent⟩ := BlinkDetector.transition_lists s b now
  obtain ⟨w1, w2, -, -⟩ :=
    BlinkDetector.applyWindow_fields (s.transition b now) now
  have hallb : ((s.update b now).1).all_blinks = s.all_blinks ++ ap := by
    rw [h1, w1, hall]
  have hrecb : ((s.update b now).1).recent_blinks =
      (s.recent_blinks ++ ap).filter (fun t => decide (now - t ≤ 60)) := by
    rw [h2, w2, hrecent]
  have hfilter : s.recent_blinks.filter (fun t => decide (now - t ≤ 60)) =
      s.all_blinks.filter (fun t => decide (now - t ≤ 60)) := by
    rw [hrec, List.filter_filter]
    apply List.filter_congr
    intro x _
    by_cases hx60 : now - x ≤ 60
    · have hxN : N - x ≤ 60 := by linarith
      simp [hx60, hxN]
    · simp [hx60]
  refine ⟨?_, ?_, ?_⟩
  · rw [hallb]
    rcases hap with h | h <;> subst h
    · simpa using hsort
    · rw [List.Sorted, List.pairwise_append]
      refine ⟨hsort, List.sorted_singleton now, ?_⟩
      intro x hx y hy
      simp only [List.mem_singleton] at hy
      subst hy
      exact le_trans (hbound x hx) hN
  · rw [hallb]
    intro t ht
    rcases List.mem_append.mp ht with h | h
    · exact le_trans (hbound t h) hN
    · rcases hap with hap | hap <;> subst hap
      · simp at h
      · simp only [List.mem_singleton] at h
        subst h
        exact le_refl _
  · rw [hrecb, hallb, List.filter_append, List.filter_append, hfilter]

/-- The invariant `BlinkInv` holds of the freshly initialised (or reset) detector. -/
theorem BlinkDetector.init_inv (N : ℚ) : BlinkInv BlinkDetector.init N := by
  refine ⟨?_, ?_, ?_⟩ <;> simp [BlinkDetector.init]

/-- Iterating updates over a chronological observation sequence preserves
`BlinkInv`, ending at the last observation time. -/
theorem BlinkDetector.runList_inv (ins : List (Bool × ℚ)) :
    ∀ (s : BlinkDetector) (N : ℚ), BlinkInv s N →
      timesMono N (ins.map Prod.snd) = true →
      BlinkInv (s.runList ins) (lastTime N ins) := by
  induction ins with
  | nil =>
    intro s N h _
    simpa [BlinkDetector.runList, lastTime] using h
  | cons a rest ih =>
    intro s N h hmono
    obtain ⟨b, t⟩ := a
    have hm : decide (N ≤ t) = true ∧
        timesMono t (rest.map Prod.snd) = true := by
      simpa [timesMono, List.map] using hmono
    simp only [BlinkDetector.runList, lastTime]
    exact ih (s.update b t).1 t
      (BlinkDetector.update_inv s b N t (of_decide_eq_true hm.1) h) hm.2

/-- The last time stamp of `ins ++ [(b, t)]` is `t`. -/
theorem lastTime_append (ins : List (Bool × ℚ)) :
    ∀ (N : ℚ) (b : Bool) (t : ℚ), lastTime N (ins ++ [(b, t)]) = t := by
  induction ins with
  | nil => intro N b t; rfl
  | cons a rest ih =>
    intro N b t
    obtain ⟨b', t'⟩ := a
    simp only [List.cons_append, lastTime]
    exact ih t' b t

/-- On a time-sorted list, the trailing-window filter keeps a suffix. -/
theorem filter_window_suffix (N : ℚ) (l : List ℚ)
    (hs : l.Sorted (· ≤ ·)) :
    List.IsSuffix (l.filter (fun t => decide (N - t ≤ 60))) l := by
  induction l with
  | nil => simp
  | cons a rest ih =>
    by_cases ha : N - a ≤ 60
    · have hall : (a :: rest).filter (fun t => decide (N - t ≤ 60)) =
          a :: rest := by
        apply List.filter_eq_self.mpr
        intro x hx
        have hax : a ≤ x := by
          rcases List.mem_cons.mp hx with h | h
          · exact le_of_eq h.symm
          · exact List.rel_of_sorted_cons hs x h
        simp only [decide_eq_true_eq]
        linarith
      rw [hall]
    · rw [List.filter_cons_of_neg]
      · exact (ih hs.of_cons).trans (List.suffix_cons a rest)
      · simpa using ha

/-- Claim C6: after every update of a chronological run from a fresh
session, the recent-blink window contains exactly the recorded blink
timestamps `t` with `now - t ≤ 60` — it is the trailing-60 s filter of
`allBlinkTimestamps` — and it is a time-ordered suffix of the session log,
both sequences being non-decreasing. -/
theorem blink_window_exact (N : ℚ) (ins : List (Bool × ℚ)) (inp : Bool × ℚ)
    (h : timesMono N ((ins ++ [inp]).map Prod.snd) = true) :
    ((BlinkDetector.init.runList (ins ++ [inp])).recent_blinks =
      (BlinkDetector.init.runList (ins ++ [inp])).all_blinks.filter
        (fun t => decide (inp.2 - t ≤ 60))) ∧
    (BlinkDetector.init.runList (ins ++ [inp])).all_blinks.Sorted (· ≤ ·) ∧
    (BlinkDetector.init.runList (ins ++ [inp])).recent_blinks.Sorted
      (· ≤ ·) ∧
    List.IsSuffix (BlinkDetector.init.runList (ins ++ [inp])).recent_blinks
      (BlinkDetector.init.runList (ins ++ [inp])).all_blinks := by
  obtain ⟨b, t⟩ := inp
  have hinv := BlinkDetector.runList_inv (ins ++ [(b, t)]) BlinkDetector.init
    N (BlinkDetector.init_inv N) h
  rw [lastTime_append ins N b t] at hinv
  obtain ⟨hsort, hbound, hrec⟩ := hinv
  refine ⟨hrec, hsort, ?_, ?_⟩
  · rw [hrec]
    exact hsort.filter _
  · rw [hrec]
    exact filter_window_suffix t _ hsort

/-- Witness for C6: the three-observation session open@0, closed@1,
open@1.2 ends with the blink at 1.2 in the window, and the window is the
trailing filter of the session log. -/
theorem blink_window_exact_witness :
    (BlinkDetector.init.runList
        [(true, 0), (false, 1), (true, 1.2)]).recent_blinks =
      (BlinkDetector.init.runList
          [(true, 0), (false, 1), (true, 1.2)]).all_blinks.filter
        (fun t => decide ((1.2 : ℚ) - t ≤ 60)) :=
  (blink_window_exact 0 [(true, 0), (false, 1)] (true, 1.2)
    (by norm_num [timesMono])).1

/-! ## C7: low-blink alert gating and cooldown -/

/-- The `transition` phase never changes the alert debouncing state. -/
theorem BlinkDetector.transition_alertState (s : BlinkDetector) (b : Bool)
    (now : ℚ) :
    (s.transition b now).last_alert_time = s.last_alert_time := by
  simp only [BlinkDetector.transition]
  repeat' split
  all_goals rfl

/-- The alert decision of one blink update: when the low-blink alert is
raised, the post-window observation span is at least 30 s, the rate is
positive and below the healthy floor, the cooldown since the previous
alert has elapsed, and `last_alert_time` moves to `now`; when it is not
raised, `last_alert_time` is unchanged. -/
theorem BlinkDetector.update_alertChar (s : BlinkDetector) (b : Bool)
    (now : ℚ) :
    ((s.update b now).2.low_blink_alert = true →
      ((s.transition b now).applyWindow now).observationTime now ≥ 30 ∧
      ((s.transition b now).applyWindow now).rateBpm now > 0 ∧
      ((s.transition b now).applyWindow now).rateBpm now <
        s.min_blinks_per_minute ∧
      now - s.last_alert_time ≥ s.alert_cooldown_seconds ∧
      (s.update b now).1.last_alert_time = now) ∧
    ((s.update b now).2.low_blink_alert = false →
      (s.update b now).1.last_alert_time = s.last_alert_time) := by
  have hmin : ((s.transition b now).applyWindow now).min_blinks_per_minute =
      s.min_blinks_per_minute := by
    simp [BlinkDetector.applyWindow, (BlinkDetector.transition_const s b now).1]
  have hcd2 : ((s.transition b now).applyWindow now).alert_cooldown_seconds =
      s.alert_cooldown_seconds := by
    simp [BlinkDetector.applyWindow, (BlinkDetector.transition_const s b now).2]
  have hla : ((s.transition b now).applyWindow now).last_alert_time =
      s.last_alert_time := by
    simp [BlinkDetector.applyWindow, BlinkDetector.transition_alertState s b now]
  simp only [BlinkDetector.update]
  split
  · rename_i hcond
    refine ⟨fun _ => ⟨hcond.1, hcond.2.1, ?_, ?_, rfl⟩,
      fun hfalse => by simp at hfalse⟩
    · rw [← hmin]
      exact hcond.2.2.1
    · rw [← hla, ← hcd2]
      exact hcond.2.2.2
  · refine ⟨fun htrue => by simp at htrue, fun _ => hla⟩

/-- Along any run of blink updates, `last_alert_time` followed by the
alert-firing times forms a chain with consecutive gaps of at least the
(constant) alert cooldown. -/
theorem BlinkDetector.runTrace_chain (ins : List (Bool × ℚ)) :
    ∀ s : BlinkDetector,
      List.Chain' (fun a c => a + s.alert_cooldown_seconds ≤ c)
        (s.last_alert_time :: lowBlinkAlertTimes (s.runTrace ins).2) := by
  induction ins with
  | nil =>
    intro s
    simp [BlinkDetector.runTrace, lowBlinkAlertTimes]
  | cons a rest ih =>
    intro s
    obtain ⟨b, t⟩ := a
    simp only [BlinkDetector.runTrace]
    have ihs := ih (s.update b t).1
    obtain ⟨-, -, -, -, -, hcd⟩ := BlinkDetector.update_decomp s b t
    rw [hcd] at ihs
    obtain ⟨hat, haf⟩ := BlinkDetector.update_alertChar s b t
    cases hl : (s.update b t).2.low_blink_alert with
    | true =>
      obtain ⟨-, -, -, hcool, hset⟩ := hat hl
      rw [show lowBlinkAlertTimes ((t, (s.update b t).2) ::
            ((s.update b t).1.runTrace rest).2) =
          t :: lowBlinkAlertTimes ((s.update b t).1.runTrace rest).2 from by
        simp [lowBlinkAlertTimes, hl]]
      rw [hset] at ihs
      rw [List.chain'_cons]
      exact ⟨by linarith, ihs⟩
    | false =>
      rw [show lowBlinkAlertTimes ((t, (s.update b t).2) ::
            ((s.update b t).1.runTrace rest).2) =
          lowBlinkAlertTimes ((s.update b t).1.runTrace rest).2 from by
        simp [lowBlinkAlertTimes, hl]]
      rw [haf hl] at ihs
      exact ihs

/-- A chain whose consecutive gaps are at least a nonnegative cooldown is
pairwise separated by at least that cooldown. -/
theorem pairwise_of_cooldown_chain (cd : ℚ) (hcd : 0 ≤ cd) :
    ∀ l : List ℚ, List.Chain' (fun a c => a + cd ≤ c) l →
      List.Pairwise (fun a c => a + cd ≤ c) l := by
  intro l
  induction l with
  | nil => intro _; exact List.Pairwise.nil
  | cons a rest ih =>
    intro h
    cases rest with
    | nil => simp
    | cons b rest2 =>
      rw [List.chain'_cons] at h
      have hp := ih h.2
      refine List.Pairwise.cons ?_ hp
      intro x hx
      rcases List.mem_cons.mp hx with hxb | hx2
      · subst hxb; exact h.1
      · have hbx := (List.pairwise_cons.mp hp).1 x hx2
        linarith [h.1]

/-- Claim C7: a low-blink alert is raised only when the observed span
(now minus the earliest windowed blink, 0 on an empty window) is at least
30 s, the rate is positive and strictly below `minBlinksPerMinute`, and at
least `alertCooldownSeconds` have elapsed since the previous alert; and
over any chronological run from a fresh session, any two firing times are
at least `alertCooldownSeconds` apart, however many qualifying updates
occur in between. -/
theorem blink_low_alert_gating_and_cooldown :
    (∀ (s : BlinkDetector) (b : Bool) (now : ℚ),
      (s.update b now).2.low_blink_alert = true →
        ((s.transition b now).applyWindow now).observationTime now ≥ 30 ∧
        ((s.transition b now).applyWindow now).rateBpm now > 0 ∧
        ((s.transition b now).applyWindow now).rateBpm now <
          s.min_blinks_per_minute ∧
        now - s.last_alert_time ≥ s.alert_cooldown_seconds) ∧
    (∀ (N : ℚ) (ins : List (Bool × ℚ)),
      timesMono N (ins.map Prod.snd) = true →
      List.Pairwise
        (fun a c => a + BlinkDetector.init.alert_cooldown_seconds ≤ c)
        (lowBlinkAlertTimes (BlinkDetector.init.runTrace ins).2)) := by
  constructor
  · intro s b now h
    obtain ⟨h1, h2, h3, h4, -⟩ := (BlinkDetector.update_alertChar s b now).1 h
    exact ⟨h1, h2, h3, h4⟩
  · intro N ins _
    have hchain := BlinkDetector.runTrace_chain ins BlinkDetector.init
    have hp := pairwise_of_cooldown_chain
      BlinkDetector.init.alert_cooldown_seconds
      (by norm_num [BlinkDetector.init]) _ hchain
    exact (List.pairwise_cons.mp hp).2

/-- Witness for C7: one open-eyes observation at time 0 raises no alert,
and the firing times of that run are (vacuously) cooldown-separated. -/
theorem blink_low_alert_gating_and_cooldown_witness :
    List.Pairwise
      (fun a c => a + BlinkDetector.init.alert_cooldown_seconds ≤ c)
      (lowBlinkAlertTimes (BlinkDetector.init.runTrace [(true, 0)]).2) :=
  blink_low_alert_gating_and_cooldown.2 0 [(true, 0)]
    (by norm_num [timesMono])

/-! ## C8: posture alert streak and cooldown -/

/-- Iterated posture updates never change the configured thresholds. -/
theorem PostureDetector.runList_const (ins : List PostureInput) :
    ∀ s : PostureDetector,
      (s.runList ins).tilt_threshold = s.tilt_threshold ∧
      (s.runList ins).min_poor_duration = s.min_poor_duration ∧
      (s.runList ins).alert_cooldown_seconds = s.alert_cooldown_seconds := by
  induction ins with
  | nil => intro s; exact ⟨rfl, rfl, rfl⟩
  | cons a rest ih =>
    intro s
    obtain ⟨h1, h2, h3, -, -, -⟩ := PostureDetector.update_fields s a
    obtain ⟨g1, g2, g3⟩ := ih (s.update a).1
    exact ⟨g1.trans h1, g2.trans h2, g3.trans h3⟩

/-- After a run of posture updates, an open `poor_since = some t` means the
classification has been continuously poor since time `t`: either every
input of the run was poor and the streak was already open at `t` before
the run, or the run splits as `pre ++ s0 :: suf` with `s0` and everything
after it poor and `t = s0.now`. -/
theorem PostureDetector.runList_poorSince (ins : List PostureInput) :
    ∀ (s : PostureDetector) (t : ℚ),
      (s.runList ins).poor_since = some t →
      ((∀ x ∈ ins, PostureDetector.isPoor s.tilt_threshold x = true) ∧
        s.poor_since = some t) ∨
      (∃ pre s0 suf, ins = pre ++ s0 :: suf ∧
        (∀ x ∈ s0 :: suf,
          PostureDetector.isPoor s.tilt_threshold x = true) ∧
        s0.now = t) := by
  induction ins with
  | nil =>
    intro s t h
    exact Or.inl ⟨by simp, h⟩
  | cons a rest ih =>
    intro s t h
    simp only [PostureDetector.runList] at h
    obtain ⟨htilt, -, -, -, hpsince, -⟩ := PostureDetector.update_fields s a
    have hrec := ih (s.update a).1 t h
    rw [htilt] at hrec
    rcases hrec with ⟨hall, hsince⟩ | ⟨pre, s0, suf, hsplit, hpoor, ht0⟩
    · rw [hpsince] at hsince
      by_cases hp : PostureDetector.isPoor s.tilt_threshold a
      · rw [if_pos hp] at hsince
        cases hq : s.poor_since with
        | none =>
          right
          refine ⟨[], a, rest, rfl, ?_, ?_⟩
          · intro x hx
            rcases List.mem_cons.mp hx with hxa | hxr
            · subst hxa; exact hp
            · exact hall x hxr
          · rw [hq] at hsince
            simpa using hsince
        | some t0 =>
          left
          refine ⟨?_, ?_⟩
          · intro x hx
            rcases List.mem_cons.mp hx with hxa | hxr
            · subst hxa; exact hp
            · exact hall x hxr
          · rw [hq] at hsince
            simpa using hsince
      · rw [if_neg hp] at hsince
        exact absurd hsince (by simp)
    · right
      exact ⟨a :: pre, s0, suf, by rw [hsplit, List.cons_append], hpoor, ht0⟩

/-- Along any run of posture updates, `last_alert_time` followed by the
alert-firing times forms a chain with consecutive gaps of at least the
(constant) alert cooldown. -/
theorem PostureDetector.trace_alert_chain (ins : List PostureInput) :
    ∀ s : PostureDetector,
      List.Chain' (fun a c => a + s.alert_cooldown_seconds ≤ c)
        (s.last_alert_time :: postureAlertTimes (s.runTrace ins).2) := by
  induction ins with
  | nil =>
    intro s
    simp [PostureDetector.runTrace, postureAlertTimes]
  | cons a rest ih =>
    intro s
    simp only [PostureDetector.runTrace]
    have ihs := ih (s.update a).1
    obtain ⟨-, -, hcd, -, -, -⟩ := PostureDetector.update_fields s a
    rw [hcd] at ihs
    have hla := PostureDetector.update_lastAlert s a
    cases hl : (s.update a).2.posture_alert with
    | true =>
      obtain ⟨-, since, -, -, hcool⟩ :=
        (PostureDetector.update_alert_iff s a).mp hl
      rw [show postureAlertTimes ((a.now, (s.update a).2) ::
            ((s.update a).1.runTrace rest).2) =
          a.now :: postureAlertTimes ((s.update a).1.runTrace rest).2 from by
        simp [postureAlertTimes, hl]]
      rw [hla, if_pos hl] at ihs
      rw [List.chain'_cons]
      exact ⟨by linarith, ihs⟩
    | false =>
      rw [show postureAlertTimes ((a.now, (s.update a).2) ::
            ((s.update a).1.runTrace rest).2) =
          postureAlertTimes ((s.update a).1.runTrace rest).2 from by
        simp [postureAlertTimes, hl]]
      rw [hla, if_neg (by simp [hl])] at ihs
      exact ihs

/-- Claim C8: a posture alert fires only when the classification has been
continuously "poor" for at least `minPoorDuration` — an alerting update
closes a split `ins ++ [inp] = pre ++ s0 :: suf` in which `s0` and every
later input are classified poor and `inp.now - s0.now ≥ minPoorDuration`;
any single "good" classification clears `poorSince`, resetting the streak;
and over any chronological run from a fresh session, any two firing times
are at least `alertCooldownSeconds` apart. -/
theorem posture_alert_streak_and_cooldown :
    (∀ (ins : List PostureInput) (inp : PostureInput),
      ((PostureDetector.init.runList ins).update inp).2.posture_alert =
          true →
        ∃ pre s0 suf, ins ++ [inp] = pre ++ s0 :: suf ∧
          (∀ x ∈ s0 :: suf,
            PostureDetector.isPoor PostureDetector.init.tilt_threshold x =
              true) ∧
          inp.now - s0.now ≥ PostureDetector.init.min_poor_duration) ∧
    (∀ (s : PostureDetector) (inp : PostureInput),
      PostureDetector.isPoor s.tilt_threshold inp = false →
        ((s.update inp).1).poor_since = none) ∧
    (∀ (N : ℚ) (ins : List PostureInput),
      timesMono N (ins.map PostureInput.now) = true →
      List.Pairwise
        (fun a c => a + PostureDetector.init.alert_cooldown_seconds ≤ c)
        (postureAlertTimes (PostureDetector.init.runTrace ins).2)) := by
  refine ⟨?_, ?_, ?_⟩
  · intro ins inp halert
    obtain ⟨hct, hcm, -⟩ := PostureDetector.runList_const ins
      PostureDetector.init
    obtain ⟨hp, since, hsince, hdur, -⟩ :=
      (PostureDetector.update_alert_iff
        (PostureDetector.init.runList ins) inp).mp halert
    have hstreak := PostureDetector.runList_poorSince ins
      PostureDetector.init since hsince
    rcases hstreak with ⟨-, habs⟩ | ⟨pre, s0, suf, hsplit, hpoor, ht0⟩
    · exact absurd habs (by simp [PostureDetector.init])
    · refine ⟨pre, s0, suf ++ [inp], ?_, ?_, ?_⟩
      · rw [hsplit]
        simp
      · intro x hx
        rcases List.mem_cons.mp hx with hxa | hxr
        · subst hxa
          exact hpoor x (List.mem_cons_self _ _)
        · rcases List.mem_append.mp hxr with hxs | hxi
          · exact hpoor x (List.mem_cons_of_mem _ hxs)
          · simp only [List.mem_singleton] at hxi
            subst hxi
            rw [← hct]
            exact hp
      · rw [ht0, ← hcm]
        exact hdur
  · intro s inp hgood
    obtain ⟨-, -, -, -, hpsince, -⟩ := PostureDetector.update_fields s inp
    rw [hpsince, if_neg (by simp [hgood])]
  · intro N ins _
    have hchain := PostureDetector.trace_alert_chain ins PostureDetector.init
    have hp := pairwise_of_cooldown_chain
      PostureDetector.init.alert_cooldown_seconds
      (by norm_num [PostureDetector.init]) _ hchain
    exact (List.pairwise_cons.mp hp).2

/-- Witness for C8: a single "good" classification clears `poorSince` on
the fresh detector, and the firing times of the one-good-frame run are
(vacuously) cooldown-separated. -/
theorem posture_alert_streak_and_cooldown_witness :
    ((PostureDetector.init.update (goodFrame 0)).1).poor_since = none ∧
    List.Pairwise
      (fun a c => a + PostureDetector.init.alert_cooldown_seconds ≤ c)
      (postureAlertTimes
        (PostureDetector.init.runTrace [goodFrame 0]).2) := by
  constructor
  · apply posture_alert_streak_and_cooldown.2.1
    norm_num [PostureDetector.isPoor, goodFrame, PostureDetector.init]
  · exact posture_alert_streak_and_cooldown.2.2 0 [goodFrame 0]
      (by norm_num [timesMono, goodFrame])

end VisionMate
